import Mathlib

/-!
Verification of the Brevo contact-uploader core (`mi.py`) against its
specification.  Python strings are modelled as `List Char`; remote HTTP
calls are modelled by explicit oracles/response values; the Streamlit
submission handler (`main`) is modelled as a pure function producing an
event trace, an outcome, and the resulting remote-directory state.
-/

namespace Mi

/-- A Python string, modelled as its list of characters. -/
abbrev Str := List Char

/-! ## PhoneValidator: `is_valid_phone_number` (mi.py lines 49-71) -/

/-- `\d{8,15}` applied to a whole char segment, on the ASCII plane:
all decimal digits, length between 8 and 15 inclusive.  Python's `\d`
matches any Unicode decimal digit (category Nd); the only such
characters below U+0080 are '0'-'9', so on ASCII characters this is
exactly `Char.isDigit`.  Theorems whose truth depends on the digit set
therefore carry an ASCII-input hypothesis. -/
def digits_8_15 (cs : Str) : Bool :=
  cs.all (fun c => c.isDigit) && decide (8 ≤ cs.length) && decide (cs.length ≤ 15)

/-- The body `(?:\+|00)?\d\x7b8,15\x7d` of the regex of mi.py line 70,
required to cover a whole given segment: the alternation is a
disjunction over the three possible leading parts (empty, "+", "00"),
each followed by the digit run covering the rest of the segment. -/
def matches_core (phone : Str) : Bool :=
  digits_8_15 phone ||
  (("+".toList).isPrefixOf phone && digits_8_15 (phone.drop 1)) ||
  (("00".toList).isPrefixOf phone && digits_8_15 (phone.drop 2))

/-- `re.match` of the regex `^(?:\+|00)?\d\x7b8,15\x7d$` (mi.py lines
70-71) being truthy.  Python's `$` matches at the end of the string or
just before one newline at the very end, so the regex accepts the core
pattern over the whole string, or over the string minus a single
trailing newline. -/
def matches_general_pattern (phone : Str) : Bool :=
  matches_core phone ||
  (phone.getLast? == some '\n' && matches_core phone.dropLast)

/-- `is_valid_phone_number` from mi.py lines 49-71: three South-African
fast-accept rules (checking only the leading characters and the total
length), then the general international regex. -/
def is_valid_phone_number (phone : Str) : Bool :=
  if ("27".toList).isPrefixOf phone && phone.length == 11 then true
  else if ("+27".toList).isPrefixOf phone && phone.length == 12 then true
  else if ("0027".toList).isPrefixOf phone && phone.length == 13 then true
  else matches_general_pattern phone

/-- The spec's wording of rule 4 (section 4.1): the whole string is an
optional leading `+` or `00` followed by 8-15 digits, with no trailing
characters. -/
def general_pattern_accepts (phone : Str) : Prop :=
  ∃ rest : Str,
    (phone = rest ∨ phone = '+' :: rest ∨ phone = '0' :: '0' :: rest) ∧
    rest.all (fun c => c.isDigit) = true ∧ 8 ≤ rest.length ∧ rest.length ≤ 15

/-- The spec's four acceptance rules (section 4.1) exactly as worded,
as a disjunction: since every rule only accepts (none rejects and
stops), applying them in order accepting at the first success is
equivalent to their disjunction.  Rule 4 here demands "no trailing
characters", which the code's `re.match` `$` does not enforce against a
single final newline — see the C5 counterexample. -/
def spec_accepts (phone : Str) : Prop :=
  (("27".toList).isPrefixOf phone = true ∧ phone.length = 11) ∨
  (("+27".toList).isPrefixOf phone = true ∧ phone.length = 12) ∨
  (("0027".toList).isPrefixOf phone = true ∧ phone.length = 13) ∨
  general_pattern_accepts phone

/-- Rule 4 as the code actually implements it: the spec's rule 4
pattern over the whole string, or over the string minus one trailing
newline (the `$`-before-final-newline semantics of `re.match`). -/
def general_pattern_accepts_nl (phone : Str) : Prop :=
  general_pattern_accepts phone ∨
    ∃ t : Str, phone = t ++ ['\n'] ∧ general_pattern_accepts t

/-- The spec's four rules with rule 4 amended for the
`$`-before-final-newline semantics. -/
def spec_accepts_amended (phone : Str) : Prop :=
  (("27".toList).isPrefixOf phone = true ∧ phone.length = 11) ∨
  (("+27".toList).isPrefixOf phone = true ∧ phone.length = 12) ∨
  (("0027".toList).isPrefixOf phone = true ∧ phone.length = 13) ∨
  general_pattern_accepts_nl phone

/-! ## ContactDirectoryClient: `check_existing_contact` (mi.py lines 74-93) -/

/-- The result of one remote HTTP request: either a status code from a
completed response, or a raised `requests` exception carrying its
description. -/
abbrev HttpResult := Except Str Nat

/-- `check_existing_contact` from mi.py lines 74-93: issues one lookup
`GET /contacts/identifier?identifierType=identifier_type` and returns
whether the response status is 200; a raised request exception is caught
and mapped to `false`. -/
def check_existing_contact (lookup : Str → Str → HttpResult)
    (identifier identifier_type : Str) : Bool :=
  match lookup identifier identifier_type with
  | Except.ok status => status == 200
  | Except.error _ => false

/-! ## ContactDirectoryClient: `get_contact_lists` (mi.py lines 96-131) -/

/-- A contact list as returned by `GET /contacts/lists`. -/
structure ContactList where
  id : Nat
  name : Str
deriving DecidableEq

/-- The result of one page request: the page's `lists` array, or a
raised request exception. -/
abbrev PageResult := Except Str (List ContactList)

instance exceptDecEq {ε α : Type} [DecidableEq ε] [DecidableEq α] :
    DecidableEq (Except ε α) := fun x y =>
  match x, y with
  | Except.ok a, Except.ok b =>
      if h : a = b then isTrue (by rw [h])
      else isFalse (by intro he; cases he; exact h rfl)
  | Except.ok _, Except.error _ => isFalse (by intro he; cases he)
  | Except.error _, Except.ok _ => isFalse (by intro he; cases he)
  | Except.error e, Except.error f =>
      if h : e = f then isTrue (by rw [h])
      else isFalse (by intro he; cases he; exact h rfl)

/-- The `while True` loop of `get_contact_lists` (mi.py lines 106-129),
with explicit fuel to make the unbounded Python loop a total function.
Returns the offsets requested so far (the HTTP trace) paired with the
accumulated `all_lists`.  One iteration: request the page at `offset`;
a raised exception reports a non-fatal error and breaks with what was
accumulated; an empty page breaks; otherwise the chunk is appended and
`offset` advances by the fixed limit 50. -/
def get_contact_lists_loop (pages : Nat → PageResult) :
    Nat → Nat → List Nat → List ContactList → List Nat × List ContactList
  | 0, _, offsets, all_lists => (offsets, all_lists)
  | fuel + 1, offset, offsets, all_lists =>
    match pages offset with
    | Except.error _ => (offsets ++ [offset], all_lists)
    | Except.ok [] => (offsets ++ [offset], all_lists)
    | Except.ok chunk =>
        get_contact_lists_loop pages fuel (offset + 50) (offsets ++ [offset]) (all_lists ++ chunk)

/-- `get_contact_lists` from mi.py lines 96-131: paginate from offset 0
with the fixed limit 50. -/
def get_contact_lists (pages : Nat → PageResult) (fuel : Nat) :
    List Nat × List ContactList :=
  get_contact_lists_loop pages fuel 0 [] []

/-- `chunks 0 ++ chunks 1 ++ ... ++ chunks (n-1)`: the pages concatenated
in request order. -/
def concat_chunks (chunks : Nat → List ContactList) : Nat → List ContactList
  | 0 => []
  | n + 1 => chunks 0 ++ concat_chunks (fun k => chunks (k + 1)) n

/-- The concrete fake directory of the spec's pagination test: 50 items
at offset 0, 50 items at offset 50, an empty page at offset 100. -/
def c4_chunks : Nat → List ContactList :=
  fun k => if k ≤ 1 then (List.range 50).map (fun i => ⟨50 * k + i, []⟩) else []

/-- Its page oracle. -/
def c4_pages : Nat → PageResult :=
  fun off => if off ≤ 50 then Except.ok (c4_chunks (off / 50)) else Except.ok []

/-! ## ContactDirectoryClient: `create_contact` (mi.py lines 134-175) -/

/-- The `attributes` object of the creation payload (mi.py lines 143-148). -/
structure ContactAttributes where
  FIRSTNAME : Str
  LASTNAME : Str
  SMS : Str
  WHATSAPP : Str
deriving DecidableEq

/-- The JSON payload of `POST /contacts` (mi.py lines 141-150). -/
structure CreatePayload where
  email : Str
  attributes : ContactAttributes
  listIds : List Nat
deriving DecidableEq

/-- The payload built by `create_contact`: the phone value is attached
under both the SMS and the WHATSAPP attribute slots (mi.py lines 146-147). -/
def create_contact_payload (email first_name last_name phone : Str)
    (list_id : Nat) : CreatePayload :=
  { email := email,
    attributes :=
      { FIRSTNAME := first_name, LASTNAME := last_name, SMS := phone, WHATSAPP := phone },
    listIds := [list_id] }

/-- The outcome of the POST inside `create_contact`: success; an
`HTTPError` carrying the exception's own description together with the
error body's "message" field when the body parses as JSON (mi.py lines
159-171, with `none` for the `ValueError` branch); or any other raised
exception (transport failure etc., mi.py lines 173-175) carrying its
description. -/
inductive CreateResp
  | success
  | httpError (desc : Str) (payloadMessage : Option Str)
  | otherError (desc : Str)
deriving DecidableEq

/-- mi.py line 165. -/
def duplicate_contact_message : Str :=
  ("A contact with this email or phone number already exists. Please check your details and try again.").toList

/-- mi.py line 167. -/
def invalid_phone_create_message : Str :=
  ("Invalid phone number format. For South Africa, please ensure the number is 11 digits and starts with 27 (or use +27/0027 prefixes), or follow the appropriate international format.").toList

/-- The interpolated generic failure message of mi.py lines 169, 171, 174. -/
def generic_create_failure (detail : Str) : Str :=
  ("Failed to add contact: ").toList ++ detail

/-- Python's `str.lower`. -/
def lower (s : Str) : Str := s.map Char.toLower

/-- Python's `needle in hay` substring test. -/
def str_contains (hay needle : Str) : Bool := decide (List.IsInfix needle hay)

/-- The "already exists" substring sniffed at mi.py line 164. -/
def already_exists_token : Str := ("already exists").toList

/-- The "phone" substring sniffed at mi.py line 166. -/
def phone_token : Str := ("phone").toList

/-- The "sms" substring sniffed at mi.py line 166. -/
def sms_token : Str := ("sms").toList

/-- The error handling of `create_contact` (mi.py lines 159-175): the
`st.error` message shown, or `none` on success (the function returns
True and shows nothing).  The payload message is lowercased and sniffed
for known substrings; `ValueError` on the body and non-HTTP exceptions
fall through to the interpolated generic message. -/
def create_contact_error (resp : CreateResp) : Option Str :=
  match resp with
  | CreateResp.success => none
  | CreateResp.httpError desc payloadMessage =>
    match payloadMessage with
    | some error_message =>
        if str_contains (lower error_message) already_exists_token then
          some duplicate_contact_message
        else if str_contains (lower error_message) phone_token ||
            str_contains (lower error_message) sms_token then
          some invalid_phone_create_message
        else
          some (generic_create_failure error_message)
    | none => some (generic_create_failure desc)
  | CreateResp.otherError desc => some (generic_create_failure desc)

/-! ## The remote directory and the submit handler of `main`
    (mi.py lines 178-208 and 250-298) -/

/-- A contact stored in the remote directory. -/
structure Contact where
  email : Str
  phone : Str
  id : Nat
deriving DecidableEq

/-- The state of the remote directory service. -/
structure Directory where
  contacts : List Contact
  nextId : Nat
deriving DecidableEq

def dir_has_email (dir : Directory) (email : Str) : Bool :=
  dir.contacts.any (fun c => c.email == email)

def dir_has_phone (dir : Directory) (phone : Str) : Bool :=
  dir.contacts.any (fun c => c.phone == phone)

/-- The remote lookup behind `check_existing_contact` as used by `main`:
`identifierType = email_id` searches emails, `phone_id` searches phones;
when the transport fails the request raises instead of returning a
status. -/
def directory_lookup (err : Bool) (dir : Directory)
    (identifier identifier_type : Str) : HttpResult :=
  if err then Except.error (("connection error").toList)
  else if identifier_type == ("email_id").toList then
    Except.ok (if dir_has_email dir identifier then 200 else 404)
  else
    Except.ok (if dir_has_phone dir identifier then 200 else 404)

/-- `get_contact_id` (mi.py lines 178-190): look up the contact's id by
email; any raised request exception reports an error and returns None. -/
def get_contact_id (err : Bool) (dir : Directory) (email : Str) : Option Nat :=
  if err then none
  else (dir.contacts.find? (fun c => c.email == email)).map (fun c => c.id)

/-- The observable effects of one submission: remote HTTP requests, plus
local filesystem writes/removals.  `deleteContact` is the remote
directory's contact-deletion request, which the code never issues. -/
inductive Event
  | lookupEmail (identifier : Str)
  | lookupPhone (identifier : Str)
  | createContact (payload : CreatePayload)
  | resolveId (email : Str)
  | uploadFile (contact_id : Nat) (file_name : Str)
  | deleteContact (contact_id : Nat)
  | fsWrite (file_name : Str) (bytes : Str)
  | fsRemove (file_name : Str)
deriving DecidableEq

/-- Remote HTTP requests, as opposed to local filesystem effects. -/
def is_remote (e : Event) : Bool :=
  match e with
  | Event.fsWrite _ _ => false
  | Event.fsRemove _ => false
  | _ => true

/-- The behaviour of the environment for the single attempt the handler
makes at each step: whether each lookup raises, how the creation POST
responds, whether the id lookup raises, and whether the upload POST
succeeds. -/
structure Env where
  emailLookupErr : Bool
  phoneLookupErr : Bool
  createResp : CreateResp
  idLookupErr : Bool
  uploadOk : Bool
deriving DecidableEq

/-- The operator's form input: the four text fields, the selected list,
and the optional attachment as (file name, bytes). -/
structure Submission where
  first_name : Str
  last_name : Str
  email : Str
  phone : Str
  list_id : Nat
  attachment : Option (Str × Str)
deriving DecidableEq

/-- The terminal outcome of one submission (mi.py lines 250-298). -/
inductive Outcome
  | missingFields
  | invalidPhone
  | emailExists
  | phoneExists
  | createFailed (message : Str)
  | idResolveFailed
  | doneNoUpload
  | doneWithUpload
  | donePartialUploadFailed
deriving DecidableEq

/-- mi.py line 253. -/
def missing_fields_message : Str :=
  ("Please fill in all required fields (First Name, Last Name, Email, Phone).").toList

/-- mi.py line 258. -/
def invalid_phone_workflow_message : Str :=
  ("The phone number you entered is not in an accepted format. Please correct it.").toList

/-- mi.py line 263. -/
def email_exists_message : Str :=
  ("This email address is already associated with an existing contact. Please use a different email.").toList

/-- mi.py line 267. -/
def phone_exists_message : Str :=
  ("This phone number is already associated with an existing contact. Please use a different number.").toList

/-- mi.py line 296. -/
def id_resolve_failed_message : Str :=
  ("Failed to retrieve contact ID after creation.").toList

/-- mi.py line 288. -/
def upload_failed_message : Str :=
  ("Failed to upload the PDF file.").toList

/-- mi.py line 298. -/
def plain_create_failure_message : Str :=
  ("Failed to add contact. Please check your details and try again.").toList

/-- The `st.error` messages the handler itself reports for each outcome,
in order (mi.py lines 250-298).  For `createFailed` the specific message
shown inside `create_contact` is followed by the handler's generic one
(line 298); for `donePartialUploadFailed` the handler's message (line
288) follows an upload-internal error whose text interpolates the raised
exception and is part of the upload step, not listed here. -/
def handler_reported_errors : Outcome → List Str
  | Outcome.missingFields => [missing_fields_message]
  | Outcome.invalidPhone => [invalid_phone_workflow_message]
  | Outcome.emailExists => [email_exists_message]
  | Outcome.phoneExists => [phone_exists_message]
  | Outcome.createFailed m => [m, plain_create_failure_message]
  | Outcome.idResolveFailed => [id_resolve_failed_message]
  | Outcome.doneNoUpload => []
  | Outcome.doneWithUpload => []
  | Outcome.donePartialUploadFailed => [upload_failed_message]

/-- The contact record the creation POST adds to the directory. -/
def created_contact (dir : Directory) (sub : Submission) : Contact :=
  { email := sub.email, phone := sub.phone, id := dir.nextId }

/-- The directory after a successful creation POST: the new contact is
added and the service's next identifier advances. -/
def dir_after_create (dir : Directory) (sub : Submission) : Directory :=
  { contacts := dir.contacts ++ [created_contact dir sub],
    nextId := dir.nextId + 1 }

/-- The result of one press of "Add Contact & Send PDF": the trace of
observable effects in order, the terminal outcome, and the directory
state afterwards. -/
structure RunResult where
  trace : List Event
  outcome : Outcome
  dir : Directory
deriving DecidableEq

/-- The email duplicate check of mi.py line 262:
`check_existing_contact(email, 'email_id', api_key)`. -/
def email_dup_check (env : Env) (dir : Directory) (sub : Submission) : Bool :=
  check_existing_contact (directory_lookup env.emailLookupErr dir)
    sub.email (("email_id").toList)

/-- The phone duplicate check of mi.py line 266:
`check_existing_contact(phone, 'phone_id', api_key)`. -/
def phone_dup_check (env : Env) (dir : Directory) (sub : Submission) : Bool :=
  check_existing_contact (directory_lookup env.phoneLookupErr dir)
    sub.phone (("phone_id").toList)

/-- The submit handler of `main` (mi.py lines 250-298) as one pure
function over the environment's responses.  Steps in source order:
required-field check (line 252), phone-format validation (line 257),
email duplicate check (line 262), phone duplicate check (line 266),
contact creation (line 271), id resolution (line 272), and, only when an
attachment was supplied, staging the bytes to a local file (lines
277-278), the upload (line 280) and the removal of the staged file
(line 281).  Each failing step stops the run. -/
def run_workflow (env : Env) (dir : Directory) (sub : Submission) : RunResult :=
  if sub.first_name == ([] : Str) || sub.last_name == ([] : Str) ||
      sub.email == ([] : Str) || sub.phone == ([] : Str) then
    { trace := [], outcome := Outcome.missingFields, dir := dir }
  else if !is_valid_phone_number sub.phone then
    { trace := [], outcome := Outcome.invalidPhone, dir := dir }
  else if email_dup_check env dir sub then
    { trace := [Event.lookupEmail sub.email], outcome := Outcome.emailExists, dir := dir }
  else if phone_dup_check env dir sub then
    { trace := [Event.lookupEmail sub.email, Event.lookupPhone sub.phone],
      outcome := Outcome.phoneExists, dir := dir }
  else
    match create_contact_error env.createResp with
    | some msg =>
        { trace := [Event.lookupEmail sub.email, Event.lookupPhone sub.phone,
            Event.createContact (create_contact_payload sub.email sub.first_name
              sub.last_name sub.phone sub.list_id)],
          outcome := Outcome.createFailed msg, dir := dir }
    | none =>
      match get_contact_id env.idLookupErr (dir_after_create dir sub) sub.email with
      | none =>
          { trace := [Event.lookupEmail sub.email, Event.lookupPhone sub.phone,
              Event.createContact (create_contact_payload sub.email sub.first_name
                sub.last_name sub.phone sub.list_id),
              Event.resolveId sub.email],
            outcome := Outcome.idResolveFailed,
            dir := dir_after_create dir sub }
      | some contact_id =>
        match sub.attachment with
        | none =>
            { trace := [Event.lookupEmail sub.email, Event.lookupPhone sub.phone,
                Event.createContact (create_contact_payload sub.email sub.first_name
                  sub.last_name sub.phone sub.list_id),
                Event.resolveId sub.email],
              outcome := Outcome.doneNoUpload,
              dir := dir_after_create dir sub }
        | some (file_name, bytes) =>
            { trace := [Event.lookupEmail sub.email, Event.lookupPhone sub.phone,
                Event.createContact (create_contact_payload sub.email sub.first_name
                  sub.last_name sub.phone sub.list_id),
                Event.resolveId sub.email,
                Event.fsWrite file_name bytes,
                Event.uploadFile contact_id file_name,
                Event.fsRemove file_name],
              outcome := if env.uploadOk then Outcome.doneWithUpload
                else Outcome.donePartialUploadFailed,
              dir := dir_after_create dir sub }

/-! ## AccessGate: `check_password` (mi.py lines 22-46) -/

/-- The session state touched by the gate: Streamlit's
`st.session_state["password_correct"]`, absent before the first
attempt. -/
structure Session where
  password_correct : Option Bool
deriving DecidableEq

/-- `password_entered` (mi.py lines 26-32): store the result of the
comparison of the candidate against the configured secret.  The
constant-time aspect of `hmac.compare_digest` is a timing property not
visible to a functional model; functionally it is string equality. -/
def password_entered (secret candidate : Str) (_s : Session) : Session :=
  { password_correct := some (candidate == secret) }

/-- The return value of `check_password` (mi.py lines 34-42): true iff
the stored bit is present and set. -/
def check_password (s : Session) : Bool :=
  s.password_correct.getD false

/-- mi.py lines 40-41: the "Password incorrect" error is rendered iff
the early return did not fire and the key is present, i.e. the bit is
false. -/
def password_error_shown (s : Session) : Bool :=
  s.password_correct == some false

/-- One interaction on the gate page: when the session is already
unlocked `check_password` returns at line 36 before rendering the
password input, so no further attempt can occur; otherwise the entered
candidate is processed by `password_entered`. -/
def gate_step (secret : Str) (s : Session) (candidate : Str) : Session :=
  if check_password s then s else password_entered secret candidate s

/-- A session processing a list of entered candidates in order. -/
def gate_run (secret : Str) (s : Session) : List Str → Session
  | [] => s
  | c :: cs => gate_run secret (gate_step secret s c) cs

/-- mi.py lines 45-46: `st.stop()` halts everything after the gate
unless `check_password` returned true, so the submit handler runs only
in an unlocked session. -/
def main_gated (s : Session) (env : Env) (dir : Directory)
    (sub : Submission) : Option RunResult :=
  if check_password s then some (run_workflow env dir sub) else none

/-! ## Case analysis of the submit handler -/

/-- All four required fields are non-empty (Python truthiness of the
text inputs at mi.py line 252). -/
def fields_present (sub : Submission) : Prop :=
  sub.first_name ≠ [] ∧ sub.last_name ≠ [] ∧ sub.email ≠ [] ∧ sub.phone ≠ []

/-- C1's concrete environment: every remote call succeeds. -/
def c1_env : Env :=
  { emailLookupErr := false, phoneLookupErr := false,
    createResp := CreateResp.success, idLookupErr := false, uploadOk := true }

/-- C1's concrete starting directory. -/
def c1_dir : Directory := { contacts := [], nextId := 7 }

/-- C1's concrete submission, with an attachment. -/
def c1_sub : Submission :=
  { first_name := ("Ada").toList, last_name := ("Lovelace").toList,
    email := ("ada@example.com").toList, phone := ("+27789538632").toList,
    list_id := 3, attachment := some (("report.pdf").toList, ("PDF").toList) }

/-- C2's concrete environment: creation and resolution succeed, the
upload fails. -/
def c2_env : Env :=
  { emailLookupErr := false, phoneLookupErr := false,
    createResp := CreateResp.success, idLookupErr := false, uploadOk := false }

/-- C2's concrete starting directory. -/
def c2_dir : Directory := { contacts := [], nextId := 4 }

/-- C2's concrete submission. -/
def c2_sub : Submission :=
  { first_name := ("Grace").toList, last_name := ("Hopper").toList,
    email := ("grace@example.com").toList, phone := ("27789538632").toList,
    list_id := 1, attachment := some (("cv.pdf").toList, ("BYTES").toList) }

/-- C9's concrete environment (upload succeeds). -/
def c9_env : Env :=
  { emailLookupErr := false, phoneLookupErr := false,
    createResp := CreateResp.success, idLookupErr := false, uploadOk := true }

/-- C9's concrete starting directory. -/
def c9_dir : Directory := { contacts := [], nextId := 1 }

/-- C9's concrete submission. -/
def c9_sub : Submission :=
  { first_name := ("Ann").toList, last_name := ("Lee").toList,
    email := ("ann@example.com").toList, phone := ("27789538632").toList,
    list_id := 2, attachment := some (("report.pdf").toList, ("PDFBYTES").toList) }

/-! ## Theorems -/

theorem digits_8_15_eq_true_iff (cs : Str) :
    digits_8_15 cs = true ↔
      cs.all (fun c => c.isDigit) = true ∧ 8 ≤ cs.length ∧ cs.length ≤ 15 := by
  simp [digits_8_15, and_assoc]

theorem matches_core_iff (phone : Str) :
    matches_core phone = true ↔ general_pattern_accepts phone := by
  constructor
  · intro h
    simp only [matches_core, Bool.or_eq_true, Bool.and_eq_true] at h
    rcases h with (h | ⟨hp, h⟩) | ⟨hp, h⟩
    · exact ⟨phone, Or.inl rfl, (digits_8_15_eq_true_iff phone).mp h⟩
    · obtain ⟨t, ht⟩ := List.isPrefixOf_iff_prefix.mp hp
      refine ⟨phone.drop 1, Or.inr (Or.inl ?_), (digits_8_15_eq_true_iff _).mp h⟩
      rw [← ht]
      rfl
    · obtain ⟨t, ht⟩ := List.isPrefixOf_iff_prefix.mp hp
      refine ⟨phone.drop 2, Or.inr (Or.inr ?_), (digits_8_15_eq_true_iff _).mp h⟩
      rw [← ht]
      rfl
  · rintro ⟨rest, hshape, hdig, hlo, hhi⟩
    have hd : digits_8_15 rest = true :=
      (digits_8_15_eq_true_iff rest).mpr ⟨hdig, hlo, hhi⟩
    simp only [matches_core, Bool.or_eq_true, Bool.and_eq_true]
    rcases hshape with rfl | rfl | rfl
    · exact Or.inl (Or.inl hd)
    · exact Or.inl (Or.inr ⟨List.isPrefixOf_iff_prefix.mpr ⟨rest, rfl⟩, hd⟩)
    · exact Or.inr ⟨List.isPrefixOf_iff_prefix.mpr ⟨rest, rfl⟩, hd⟩

/-- A list whose last element is `a` is its `dropLast` followed by
`[a]`. -/
theorem dropLast_append_of_getLast? {l : Str} {a : Char}
    (h : l.getLast? = some a) : l.dropLast ++ [a] = l := by
  induction l with
  | nil => cases h
  | cons x xs ih =>
      cases xs with
      | nil =>
          rw [List.getLast?_singleton] at h
          injection h with hx
          rw [hx]
          rfl
      | cons y ys =>
          rw [List.getLast?_cons_cons] at h
          show x :: ((y :: ys).dropLast ++ [a]) = x :: y :: ys
          rw [ih h]

theorem matches_general_pattern_iff (phone : Str) :
    matches_general_pattern phone = true ↔ general_pattern_accepts_nl phone := by
  constructor
  · intro h
    simp only [matches_general_pattern, Bool.or_eq_true, Bool.and_eq_true] at h
    rcases h with h | ⟨hl, hcore⟩
    · exact Or.inl ((matches_core_iff phone).mp h)
    · have hl' : phone.getLast? = some '\n' := beq_iff_eq.mp hl
      exact Or.inr ⟨phone.dropLast, (dropLast_append_of_getLast? hl').symm,
        (matches_core_iff _).mp hcore⟩
  · intro h
    simp only [matches_general_pattern, Bool.or_eq_true, Bool.and_eq_true]
    rcases h with h | ⟨t, rfl, ht⟩
    · exact Or.inl ((matches_core_iff phone).mpr h)
    · refine Or.inr ⟨?_, ?_⟩
      · rw [List.getLast?_concat]
        rfl
      · rw [List.dropLast_concat]
        exact (matches_core_iff t).mpr ht

/-- Splits a conjunction of Bool tests `a && (n == m)` arriving as a
single Bool equation. -/
theorem and_beq_split {a : Bool} {n m : Nat} (h : (a && (n == m)) = true) :
    a = true ∧ n = m := by
  rw [Bool.and_eq_true] at h
  exact ⟨h.1, beq_iff_eq.mp h.2⟩

/-- Rebuilds the Bool test from its parts. -/
theorem and_beq_build {a : Bool} {n m : Nat} (ha : a = true) (hb : n = m) :
    (a && (n == m)) = true := by
  rw [Bool.and_eq_true]
  exact ⟨ha, beq_iff_eq.mpr hb⟩

/-- The validator accepts exactly the strings accepted by the spec's
rules with rule 4 amended for the `$`-before-final-newline semantics
(shared helper for the claims below). -/
theorem is_valid_iff_spec_accepts_amended (phone : Str) :
    is_valid_phone_number phone = true ↔ spec_accepts_amended phone := by
  unfold is_valid_phone_number spec_accepts_amended
  by_cases h1 : (("27".toList).isPrefixOf phone && phone.length == 11) = true
  · rw [if_pos h1]
    exact iff_of_true rfl (Or.inl ⟨(and_beq_split h1).1, (and_beq_split h1).2⟩)
  · rw [if_neg h1]
    by_cases h2 : (("+27".toList).isPrefixOf phone && phone.length == 12) = true
    · rw [if_pos h2]
      exact iff_of_true rfl (Or.inr (Or.inl ⟨(and_beq_split h2).1, (and_beq_split h2).2⟩))
    · rw [if_neg h2]
      by_cases h3 : (("0027".toList).isPrefixOf phone && phone.length == 13) = true
      · rw [if_pos h3]
        exact iff_of_true rfl (Or.inr (Or.inr (Or.inl ⟨(and_beq_split h3).1, (and_beq_split h3).2⟩)))
      · rw [if_neg h3]
        rw [matches_general_pattern_iff]
        constructor
        · intro h
          exact Or.inr (Or.inr (Or.inr h))
        · rintro (⟨ha, hb⟩ | ⟨ha, hb⟩ | ⟨ha, hb⟩ | h)
          · exact absurd (and_beq_build ha hb) h1
          · exact absurd (and_beq_build ha hb) h2
          · exact absurd (and_beq_build ha hb) h3
          · exact h

/-- C5 counterexample: the program accepts "12345678\n" — `re.match`'s
`$` matches just before the single trailing newline (mi.py lines 70-71)
— while none of the spec's rules as worded accepts it (rule 4 demands
no trailing characters), so "isValid returns true exactly when one of
the spec's rules accepts" is false at this input. -/
theorem c5_counterexample :
    ("12345678\n").toList = ['1', '2', '3', '4', '5', '6', '7', '8', '\n'] ∧
    is_valid_phone_number ['1', '2', '3', '4', '5', '6', '7', '8', '\n'] = true ∧
    ¬ spec_accepts ['1', '2', '3', '4', '5', '6', '7', '8', '\n'] := by
  refine ⟨by decide, by decide, ?_⟩
  rintro (⟨h, _⟩ | ⟨h, _⟩ | ⟨h, _⟩ | ⟨rest, hshape, hdig, hlo, hhi⟩)
  · exact absurd h (by decide)
  · exact absurd h (by decide)
  · exact absurd h (by decide)
  · rcases hshape with rfl | heq | heq
    · exact absurd hdig (by decide)
    · injection heq with h1 _
      exact absurd h1 (by decide)
    · injection heq with h1 _
      exact absurd h1 (by decide)

/-- C5 (amended): restricted to ASCII inputs — on ASCII characters the
model's digit predicate coincides with Python's `\d`, whereas Python's
`\d` additionally matches non-ASCII Unicode decimal digits, which this
statement does not cover — the validator accepts exactly the spec's
rules with rule 4 amended to also allow a single trailing newline after
the digits (the `$` semantics of `re.match`); and the concrete examples
hold: "" and "123" are invalid, "+14155552671" is valid, and
"12345678\n" is valid.  The function is a pure Lean function, hence
side-effect free. -/
theorem c5_phone_validation_amended :
    (∀ phone : Str, (∀ c ∈ phone, c.toNat < 128) →
      (is_valid_phone_number phone = true ↔ spec_accepts_amended phone)) ∧
    is_valid_phone_number (("").toList) = false ∧
    is_valid_phone_number (("123").toList) = false ∧
    is_valid_phone_number (("+14155552671").toList) = true ∧
    is_valid_phone_number (("12345678\n").toList) = true :=
  ⟨fun phone _ => is_valid_iff_spec_accepts_amended phone,
   by decide, by decide, by decide, by decide⟩

/-- Witness for C5's amended theorem at the ASCII input
"+14155552671". -/
theorem c5_witness :
    (∀ c ∈ (("+14155552671").toList), c.toNat < 128) ∧
    (is_valid_phone_number (("+14155552671").toList) = true ↔
      spec_accepts_amended (("+14155552671").toList)) ∧
    is_valid_phone_number (("12345678\n").toList) = true :=
  ⟨by decide,
   c5_phone_validation_amended.1 (("+14155552671").toList) (by decide),
   c5_phone_validation_amended.2.2.2.2⟩

/-- C6: a string starting with "27" whose length is not 11 is still
accepted whenever it matches the general 8-15-digit pattern: the
South-African rules failing does not block the general rule. -/
theorem c6_general_rule_not_short_circuited (phone : Str)
    (_hpre : ("27".toList).isPrefixOf phone = true)
    (_hlen : phone.length ≠ 11)
    (hgen : general_pattern_accepts phone) :
    is_valid_phone_number phone = true :=
  (is_valid_iff_spec_accepts_amended phone).mpr
    (Or.inr (Or.inr (Or.inr (Or.inl hgen))))

/-- Witness for C6 at the concrete input "271234567" (9 characters,
starts with "27", all digits). -/
theorem c6_witness :
    ("27".toList).isPrefixOf ("271234567".toList) = true ∧
    ("271234567".toList).length ≠ 11 ∧
    general_pattern_accepts ("271234567".toList) ∧
    is_valid_phone_number ("271234567".toList) = true := by
  refine ⟨by decide, by decide, ⟨"271234567".toList, Or.inl rfl, by decide, by decide, by decide⟩, ?_⟩
  exact c6_general_rule_not_short_circuited ("271234567".toList) (by decide) (by decide)
    ⟨"271234567".toList, Or.inl rfl, by decide, by decide, by decide⟩

/-- C10: the three South-African rules check only the leading characters
and the total length, never digit-ness: any 11-character string starting
with "27", any 12-character string starting with "+27", and any
13-character string starting with "0027" is accepted. -/
theorem c10_prefix_rules_ignore_digitness (phone : Str) :
    (("27".toList).isPrefixOf phone = true → phone.length = 11 →
      is_valid_phone_number phone = true) ∧
    (("+27".toList).isPrefixOf phone = true → phone.length = 12 →
      is_valid_phone_number phone = true) ∧
    (("0027".toList).isPrefixOf phone = true → phone.length = 13 →
      is_valid_phone_number phone = true) :=
  ⟨fun hp hl => (is_valid_iff_spec_accepts_amended phone).mpr (Or.inl ⟨hp, hl⟩),
   fun hp hl => (is_valid_iff_spec_accepts_amended phone).mpr (Or.inr (Or.inl ⟨hp, hl⟩)),
   fun hp hl => (is_valid_iff_spec_accepts_amended phone).mpr
     (Or.inr (Or.inr (Or.inl ⟨hp, hl⟩)))⟩

/-- Witness for C10 at the non-digit inputs "27abcdefghi",
"+27abcdefghi" and "0027abcdefghi". -/
theorem c10_witness :
    is_valid_phone_number ("27abcdefghi".toList) = true ∧
    is_valid_phone_number ("+27abcdefghi".toList) = true ∧
    is_valid_phone_number ("0027abcdefghi".toList) = true :=
  ⟨(c10_prefix_rules_ignore_digitness ("27abcdefghi".toList)).1 (by decide) (by decide),
   (c10_prefix_rules_ignore_digitness ("+27abcdefghi".toList)).2.1 (by decide) (by decide),
   (c10_prefix_rules_ignore_digitness ("0027abcdefghi".toList)).2.2 (by decide) (by decide)⟩

/-- C3: the duplicate check returns true exactly on an explicit 200
response, and any raised transport/request error yields false rather
than propagating (fail-open). -/
theorem c3_contact_exists_fail_open (lookup : Str → Str → HttpResult)
    (identifier identifier_type : Str) :
    (check_existing_contact lookup identifier identifier_type = true ↔
      lookup identifier identifier_type = Except.ok 200) ∧
    (∀ e : Str, lookup identifier identifier_type = Except.error e →
      check_existing_contact lookup identifier identifier_type = false) := by
  constructor
  · unfold check_existing_contact
    cases h : lookup identifier identifier_type with
    | ok status =>
        simp only [Except.ok.injEq]
        exact ⟨fun hb => beq_iff_eq.mp hb, fun he => beq_iff_eq.mpr he⟩
    | error e => simp
  · intro e he
    unfold check_existing_contact
    rw [he]

/-- Witness for C3: a lookup raising a transport error yields false. -/
theorem c3_witness :
    check_existing_contact (fun _ _ => Except.error ("connection error".toList))
      ("a@b.c".toList) ("email_id".toList) = false :=
  (c3_contact_exists_fail_open (fun _ _ => Except.error ("connection error".toList))
      ("a@b.c".toList) ("email_id".toList)).2 ("connection error".toList) rfl

theorem get_contact_lists_loop_spec (pages : Nat → PageResult) :
    ∀ (n : Nat) (chunks : Nat → List ContactList) (fuel offset : Nat)
      (offsets : List Nat) (acc : List ContactList),
      n < fuel →
      (∀ k, k < n → pages (offset + 50 * k) = Except.ok (chunks k) ∧ chunks k ≠ []) →
      (pages (offset + 50 * n) = Except.ok [] ∨
        ∃ e, pages (offset + 50 * n) = Except.error e) →
      get_contact_lists_loop pages fuel offset offsets acc =
        (offsets ++ (List.range (n + 1)).map (fun k => offset + 50 * k),
         acc ++ concat_chunks chunks n) := by
  intro n
  induction n with
  | zero =>
      intro chunks fuel offset offsets acc hfuel _ hstop
      match fuel, hfuel with
      | f + 1, _ =>
        rw [get_contact_lists_loop]
        rcases hstop with h | ⟨e, h⟩
        · rw [Nat.mul_zero, Nat.add_zero] at h
          rw [h]
          simp [concat_chunks, List.range_succ]
        · rw [Nat.mul_zero, Nat.add_zero] at h
          rw [h]
          simp [concat_chunks, List.range_succ]
  | succ n ih =>
      intro chunks fuel offset offsets acc hfuel hok hstop
      match fuel, hfuel with
      | f + 1, hfuel =>
        rw [get_contact_lists_loop]
        obtain ⟨h0, hne⟩ := hok 0 (Nat.succ_pos n)
        rw [Nat.mul_zero, Nat.add_zero] at h0
        rw [h0]
        match hc : chunks 0, hne with
        | c :: cs, _ =>
          have step : get_contact_lists_loop pages f (offset + 50)
              (offsets ++ [offset]) (acc ++ (c :: cs)) =
              ((offsets ++ [offset]) ++
                (List.range (n + 1)).map (fun k => (offset + 50) + 50 * k),
               (acc ++ (c :: cs)) ++ concat_chunks (fun k => chunks (k + 1)) n) := by
            apply ih (fun k => chunks (k + 1)) f (offset + 50) (offsets ++ [offset])
              (acc ++ (c :: cs)) (Nat.lt_of_succ_lt_succ hfuel)
            · intro k hk
              have := hok (k + 1) (Nat.succ_lt_succ hk)
              have harith : offset + 50 * (k + 1) = offset + 50 + 50 * k := by omega
              rw [harith] at this
              exact this
            · have harith : offset + 50 * (n + 1) = offset + 50 + 50 * n := by omega
              rw [harith] at hstop
              exact hstop
          have hoff : (List.range (n + 1 + 1)).map (fun k => offset + 50 * k) =
              offset :: (List.range (n + 1)).map (fun k => (offset + 50) + 50 * k) := by
            rw [List.range_succ_eq_map, List.map_cons, List.map_map]
            have : ((fun k => offset + 50 * k) ∘ Nat.succ) =
                (fun k => (offset + 50) + 50 * k) := by
              funext k
              simp only [Function.comp]
              omega
            rw [this, Nat.mul_zero, Nat.add_zero]
          have hcc : concat_chunks chunks (n + 1) =
              (c :: cs) ++ concat_chunks (fun k => chunks (k + 1)) n := by
            rw [concat_chunks, hc]
          exact step.trans (by rw [hoff, hcc]; simp)

/-- C4: pagination requests exactly the offsets 0, 50, ..., 50·n (fixed
page size 50, sequential), concatenating the pages in request order,
stopping at the first empty page; and if the page at offset 50·n instead
raises, the function returns exactly the items accumulated from the
earlier pages. -/
theorem c4_pagination (pages : Nat → PageResult) (chunks : Nat → List ContactList)
    (n fuel : Nat) (hfuel : n < fuel)
    (hok : ∀ k, k < n → pages (50 * k) = Except.ok (chunks k) ∧ chunks k ≠ []) :
    (pages (50 * n) = Except.ok [] →
      get_contact_lists pages fuel =
        ((List.range (n + 1)).map (fun k => 50 * k), concat_chunks chunks n)) ∧
    (∀ e, pages (50 * n) = Except.error e →
      get_contact_lists pages fuel =
        ((List.range (n + 1)).map (fun k => 50 * k), concat_chunks chunks n)) := by
  constructor
  · intro hstop
    have := get_contact_lists_loop_spec pages n chunks fuel 0 [] [] hfuel
      (by intro k hk; simpa using hok k hk) (Or.inl (by simpa using hstop))
    simpa using this
  · intro e hstop
    have := get_contact_lists_loop_spec pages n chunks fuel 0 [] [] hfuel
      (by intro k hk; simpa using hok k hk) (Or.inr ⟨e, by simpa using hstop⟩)
    simpa using this

/-- Witness for C4: on the spec's fake directory the function requests
offsets 0, 50, 100 and returns exactly the 100 items in order. -/
theorem c4_witness :
    (2 : Nat) < 3 ∧
    (∀ k, k < 2 → c4_pages (50 * k) = Except.ok (c4_chunks k) ∧ c4_chunks k ≠ []) ∧
    c4_pages (50 * 2) = Except.ok [] ∧
    get_contact_lists c4_pages 3 = ([0, 50, 100], concat_chunks c4_chunks 2) ∧
    (get_contact_lists c4_pages 3).2 = c4_chunks 0 ++ c4_chunks 1 ∧
    (get_contact_lists c4_pages 3).2.length = 100 := by
  refine ⟨by decide, by decide, by decide, ?_, by decide, by decide⟩
  have := (c4_pagination c4_pages c4_chunks 2 3 (by decide) (by decide)).1 (by decide)
  rw [this]
  decide

/-- An appended-to string never equals a string that does not start
with the appended part. -/
theorem append_ne_of_take_ne {p m q : Str} (h : q.take p.length ≠ p) :
    p ++ m ≠ q := by
  intro he
  apply h
  rw [← he, List.take_left]

/-- C8 counterexample: a remote validation rejection whose payload
message is "request rejected" and a transport failure whose exception
description is "request rejected" produce the identical human-facing
message, so the four failure classes do not each produce a distinct
message. -/
theorem c8_counterexample :
    create_contact_error
        (CreateResp.httpError (("HTTPError").toList) (some (("request rejected").toList))) =
      create_contact_error (CreateResp.otherError (("request rejected").toList)) ∧
    create_contact_error (CreateResp.otherError (("request rejected").toList)) =
      some (generic_create_failure (("request rejected").toList)) := by
  constructor
  · decide
  · decide

/-- C8 (amended): the creation payload carries the phone under both the
SMS and WHATSAPP slots with an identical value; the error-payload
message is sniffed for known substrings ("already exists" picks the
duplicate message, else "phone" or "sms" picks the invalid-phone
message, else the generic fallback); the duplicate and invalid-phone
messages are distinct from each other and from every generic message,
but remote-validation fallbacks and transport failures share the same
generic template (see the counterexample). -/
theorem c8_create_contact_payload_and_messages
    (email first_name last_name phone : Str) (list_id : Nat) :
    ((create_contact_payload email first_name last_name phone list_id).attributes.SMS = phone ∧
     (create_contact_payload email first_name last_name phone list_id).attributes.WHATSAPP = phone) ∧
    (∀ desc m, str_contains (lower m) already_exists_token = true →
      create_contact_error (CreateResp.httpError desc (some m)) = some duplicate_contact_message) ∧
    (∀ desc m, str_contains (lower m) already_exists_token = false →
      (str_contains (lower m) phone_token = true ∨ str_contains (lower m) sms_token = true) →
      create_contact_error (CreateResp.httpError desc (some m)) = some invalid_phone_create_message) ∧
    (∀ desc m, str_contains (lower m) already_exists_token = false →
      str_contains (lower m) phone_token = false →
      str_contains (lower m) sms_token = false →
      create_contact_error (CreateResp.httpError desc (some m)) =
        some (generic_create_failure m)) ∧
    (∀ desc, create_contact_error (CreateResp.otherError desc) =
      some (generic_create_failure desc)) ∧
    duplicate_contact_message ≠ invalid_phone_create_message ∧
    (∀ d, generic_create_failure d ≠ duplicate_contact_message) ∧
    (∀ d, generic_create_failure d ≠ invalid_phone_create_message) := by
  refine ⟨⟨rfl, rfl⟩, ?_, ?_, ?_, fun _ => rfl, by decide, ?_, ?_⟩
  · intro desc m hdup
    simp [create_contact_error, hdup]
  · intro desc m hdup hps
    rcases hps with hp | hs
    · simp [create_contact_error, hdup, hp]
    · simp [create_contact_error, hdup, hs]
  · intro desc m hdup hp hs
    simp [create_contact_error, hdup, hp, hs]
  · intro d
    exact append_ne_of_take_ne (by decide)
  · intro d
    exact append_ne_of_take_ne (by decide)

/-- Witness for C8's amended theorem: concrete representatives of the
three substring classes are classified as stated. -/
theorem c8_witness :
    create_contact_error
        (CreateResp.httpError (("HTTPError").toList)
          (some (("Contact already exists").toList))) = some duplicate_contact_message ∧
    create_contact_error
        (CreateResp.httpError (("HTTPError").toList)
          (some (("Invalid phone number").toList))) = some invalid_phone_create_message ∧
    create_contact_error
        (CreateResp.httpError (("HTTPError").toList)
          (some (("bad request").toList))) =
      some (generic_create_failure (("bad request").toList)) ∧
    generic_create_failure (("bad request").toList) ≠ duplicate_contact_message :=
  ⟨(c8_create_contact_payload_and_messages [] [] [] [] 0).2.1
      (("HTTPError").toList) (("Contact already exists").toList) (by decide),
   (c8_create_contact_payload_and_messages [] [] [] [] 0).2.2.1
      (("HTTPError").toList) (("Invalid phone number").toList) (by decide) (Or.inl (by decide)),
   (c8_create_contact_payload_and_messages [] [] [] [] 0).2.2.2.1
      (("HTTPError").toList) (("bad request").toList) (by decide) (by decide) (by decide),
   (c8_create_contact_payload_and_messages [] [] [] [] 0).2.2.2.2.2.2.1
      (("bad request").toList)⟩

theorem fields_cond_false {sub : Submission} (h : fields_present sub) :
    (sub.first_name == ([] : Str) || sub.last_name == ([] : Str) ||
      sub.email == ([] : Str) || sub.phone == ([] : Str)) = false := by
  obtain ⟨h1, h2, h3, h4⟩ := h
  rw [Bool.or_eq_false_iff, Bool.or_eq_false_iff, Bool.or_eq_false_iff]
  exact ⟨⟨⟨beq_eq_false_iff_ne.mpr h1, beq_eq_false_iff_ne.mpr h2⟩,
    beq_eq_false_iff_ne.mpr h3⟩, beq_eq_false_iff_ne.mpr h4⟩

theorem email_dup_check_eq (env : Env) (dir : Directory) (sub : Submission) :
    email_dup_check env dir sub = (!env.emailLookupErr && dir_has_email dir sub.email) := by
  unfold email_dup_check check_existing_contact directory_lookup
  cases henv : env.emailLookupErr
  · cases hdir : dir_has_email dir sub.email
    · rfl
    · rfl
  · rfl

theorem phone_dup_check_eq (env : Env) (dir : Directory) (sub : Submission) :
    phone_dup_check env dir sub = (!env.phoneLookupErr && dir_has_phone dir sub.phone) := by
  unfold phone_dup_check check_existing_contact directory_lookup
  cases henv : env.phoneLookupErr
  · cases hdir : dir_has_phone dir sub.phone
    · rfl
    · rfl
  · rfl

/-- `create_contact` returns True exactly on a successful POST. -/
theorem create_contact_error_eq_none_iff (resp : CreateResp) :
    create_contact_error resp = none ↔ resp = CreateResp.success := by
  cases resp with
  | success => simp [create_contact_error]
  | httpError desc payloadMessage =>
      cases payloadMessage with
      | none => simp [create_contact_error]
      | some m =>
          simp only [create_contact_error]
          split
          · simp
          · split
            · simp
            · simp
  | otherError desc => simp [create_contact_error]

/-- After a successful creation into a directory that had no contact
with the submission's email, resolving the id by email finds exactly the
created contact. -/
theorem get_contact_id_after_create (dir : Directory) (sub : Submission)
    (hne : dir_has_email dir sub.email = false) :
    get_contact_id false (dir_after_create dir sub) sub.email = some dir.nextId := by
  unfold get_contact_id dir_after_create
  rw [if_neg Bool.false_ne_true]
  have hnone : dir.contacts.find? (fun c => c.email == sub.email) = none := by
    rw [List.find?_eq_none]
    intro c hc hbeq
    have : dir_has_email dir sub.email = true := by
      unfold dir_has_email
      rw [List.any_eq_true]
      exact ⟨c, hc, hbeq⟩
    rw [this] at hne
    exact absurd hne (by simp)
  rw [List.find?_append, hnone, Option.none_or]
  simp [created_contact, List.find?]

theorem run_workflow_invalid_phone (env : Env) (dir : Directory) (sub : Submission)
    (hf : fields_present sub) (hv : is_valid_phone_number sub.phone = false) :
    run_workflow env dir sub = { trace := [], outcome := Outcome.invalidPhone, dir := dir } := by
  unfold run_workflow
  rw [fields_cond_false hf, if_neg Bool.false_ne_true, hv]
  rfl

theorem run_workflow_email_dup (env : Env) (dir : Directory) (sub : Submission)
    (hf : fields_present sub) (hv : is_valid_phone_number sub.phone = true)
    (he : email_dup_check env dir sub = true) :
    run_workflow env dir sub =
      { trace := [Event.lookupEmail sub.email], outcome := Outcome.emailExists, dir := dir } := by
  unfold run_workflow
  rw [fields_cond_false hf, if_neg Bool.false_ne_true, hv]
  rw [show (!true : Bool) = false from rfl, if_neg Bool.false_ne_true]
  rw [he, if_pos rfl]

theorem run_workflow_phone_dup (env : Env) (dir : Directory) (sub : Submission)
    (hf : fields_present sub) (hv : is_valid_phone_number sub.phone = true)
    (he : email_dup_check env dir sub = false)
    (hp : phone_dup_check env dir sub = true) :
    run_workflow env dir sub =
      { trace := [Event.lookupEmail sub.email, Event.lookupPhone sub.phone],
        outcome := Outcome.phoneExists, dir := dir } := by
  unfold run_workflow
  rw [fields_cond_false hf, if_neg Bool.false_ne_true, hv]
  rw [show (!true : Bool) = false from rfl, if_neg Bool.false_ne_true]
  rw [he, if_neg Bool.false_ne_true, hp, if_pos rfl]

theorem run_workflow_create_failed (env : Env) (dir : Directory) (sub : Submission)
    (hf : fields_present sub) (hv : is_valid_phone_number sub.phone = true)
    (he : email_dup_check env dir sub = false)
    (hp : phone_dup_check env dir sub = false)
    (m : Str) (hc : create_contact_error env.createResp = some m) :
    run_workflow env dir sub =
      { trace := [Event.lookupEmail sub.email, Event.lookupPhone sub.phone,
          Event.createContact (create_contact_payload sub.email sub.first_name
            sub.last_name sub.phone sub.list_id)],
        outcome := Outcome.createFailed m, dir := dir } := by
  unfold run_workflow
  rw [fields_cond_false hf, if_neg Bool.false_ne_true, hv]
  rw [show (!true : Bool) = false from rfl, if_neg Bool.false_ne_true]
  rw [he, if_neg Bool.false_ne_true, hp, if_neg Bool.false_ne_true, hc]

theorem run_workflow_id_failed (env : Env) (dir : Directory) (sub : Submission)
    (hf : fields_present sub) (hv : is_valid_phone_number sub.phone = true)
    (he : email_dup_check env dir sub = false)
    (hp : phone_dup_check env dir sub = false)
    (hc : create_contact_error env.createResp = none)
    (hid : get_contact_id env.idLookupErr (dir_after_create dir sub) sub.email = none) :
    run_workflow env dir sub =
      { trace := [Event.lookupEmail sub.email, Event.lookupPhone sub.phone,
          Event.createContact (create_contact_payload sub.email sub.first_name
            sub.last_name sub.phone sub.list_id),
          Event.resolveId sub.email],
        outcome := Outcome.idResolveFailed, dir := dir_after_create dir sub } := by
  unfold run_workflow
  rw [fields_cond_false hf, if_neg Bool.false_ne_true, hv]
  rw [show (!true : Bool) = false from rfl, if_neg Bool.false_ne_true]
  rw [he, if_neg Bool.false_ne_true, hp, if_neg Bool.false_ne_true, hc, hid]

theorem run_workflow_no_attachment (env : Env) (dir : Directory) (sub : Submission)
    (hf : fields_present sub) (hv : is_valid_phone_number sub.phone = true)
    (he : email_dup_check env dir sub = false)
    (hp : phone_dup_check env dir sub = false)
    (hc : create_contact_error env.createResp = none)
    (cid : Nat)
    (hid : get_contact_id env.idLookupErr (dir_after_create dir sub) sub.email = some cid)
    (hatt : sub.attachment = none) :
    run_workflow env dir sub =
      { trace := [Event.lookupEmail sub.email, Event.lookupPhone sub.phone,
          Event.createContact (create_contact_payload sub.email sub.first_name
            sub.last_name sub.phone sub.list_id),
          Event.resolveId sub.email],
        outcome := Outcome.doneNoUpload, dir := dir_after_create dir sub } := by
  unfold run_workflow
  rw [fields_cond_false hf, if_neg Bool.false_ne_true, hv]
  rw [show (!true : Bool) = false from rfl, if_neg Bool.false_ne_true]
  rw [he, if_neg Bool.false_ne_true, hp, if_neg Bool.false_ne_true, hc, hid, hatt]

theorem run_workflow_attachment (env : Env) (dir : Directory) (sub : Submission)
    (hf : fields_present sub) (hv : is_valid_phone_number sub.phone = true)
    (he : email_dup_check env dir sub = false)
    (hp : phone_dup_check env dir sub = false)
    (hc : create_contact_error env.createResp = none)
    (cid : Nat)
    (hid : get_contact_id env.idLookupErr (dir_after_create dir sub) sub.email = some cid)
    (file_name bytes : Str)
    (hatt : sub.attachment = some (file_name, bytes)) :
    run_workflow env dir sub =
      { trace := [Event.lookupEmail sub.email, Event.lookupPhone sub.phone,
          Event.createContact (create_contact_payload sub.email sub.first_name
            sub.last_name sub.phone sub.list_id),
          Event.resolveId sub.email,
          Event.fsWrite file_name bytes,
          Event.uploadFile cid file_name,
          Event.fsRemove file_name],
        outcome := if env.uploadOk then Outcome.doneWithUpload
          else Outcome.donePartialUploadFailed,
        dir := dir_after_create dir sub } := by
  unfold run_workflow
  rw [fields_cond_false hf, if_neg Bool.false_ne_true, hv]
  rw [show (!true : Bool) = false from rfl, if_neg Bool.false_ne_true]
  rw [he, if_neg Bool.false_ne_true, hp, if_neg Bool.false_ne_true, hc, hid, hatt]

/-- C1: on a submission with all four required fields non-empty, the
handler performs its steps in source order, stopping at the first
failing step: phone-format validation (no remote call on failure), then
the email duplicate check (an email collision stops before the phone
check and reports the message identifying the email field), then the
phone duplicate check, then contact creation, then identifier
resolution, then — only when an attachment was supplied — the upload;
and every event, in particular every remote call, occurs at most once
in the trace (no retries), with the per-case trace equalities giving
exactly-once for each step reached. -/
theorem c1_workflow_order (env : Env) (dir : Directory) (sub : Submission)
    (hf : fields_present sub) :
    (is_valid_phone_number sub.phone = false →
      (run_workflow env dir sub).trace = [] ∧
      (run_workflow env dir sub).outcome = Outcome.invalidPhone) ∧
    (is_valid_phone_number sub.phone = true →
      email_dup_check env dir sub = true →
      (run_workflow env dir sub).trace = [Event.lookupEmail sub.email] ∧
      (run_workflow env dir sub).outcome = Outcome.emailExists ∧
      handler_reported_errors (run_workflow env dir sub).outcome = [email_exists_message] ∧
      str_contains email_exists_message (("email").toList) = true) ∧
    (is_valid_phone_number sub.phone = true →
      email_dup_check env dir sub = false →
      phone_dup_check env dir sub = true →
      (run_workflow env dir sub).trace =
        [Event.lookupEmail sub.email, Event.lookupPhone sub.phone] ∧
      (run_workflow env dir sub).outcome = Outcome.phoneExists) ∧
    (is_valid_phone_number sub.phone = true →
      email_dup_check env dir sub = false →
      phone_dup_check env dir sub = false →
      ∀ m, create_contact_error env.createResp = some m →
      (run_workflow env dir sub).trace =
        [Event.lookupEmail sub.email, Event.lookupPhone sub.phone,
         Event.createContact (create_contact_payload sub.email sub.first_name
           sub.last_name sub.phone sub.list_id)] ∧
      (run_workflow env dir sub).outcome = Outcome.createFailed m) ∧
    (is_valid_phone_number sub.phone = true →
      email_dup_check env dir sub = false →
      phone_dup_check env dir sub = false →
      create_contact_error env.createResp = none →
      get_contact_id env.idLookupErr (dir_after_create dir sub) sub.email = none →
      (run_workflow env dir sub).trace =
        [Event.lookupEmail sub.email, Event.lookupPhone sub.phone,
         Event.createContact (create_contact_payload sub.email sub.first_name
           sub.last_name sub.phone sub.list_id),
         Event.resolveId sub.email] ∧
      (run_workflow env dir sub).outcome = Outcome.idResolveFailed) ∧
    (is_valid_phone_number sub.phone = true →
      email_dup_check env dir sub = false →
      phone_dup_check env dir sub = false →
      create_contact_error env.createResp = none →
      ∀ cid, get_contact_id env.idLookupErr (dir_after_create dir sub) sub.email = some cid →
      sub.attachment = none →
      (run_workflow env dir sub).trace =
        [Event.lookupEmail sub.email, Event.lookupPhone sub.phone,
         Event.createContact (create_contact_payload sub.email sub.first_name
           sub.last_name sub.phone sub.list_id),
         Event.resolveId sub.email] ∧
      (run_workflow env dir sub).outcome = Outcome.doneNoUpload) ∧
    (is_valid_phone_number sub.phone = true →
      email_dup_check env dir sub = false →
      phone_dup_check env dir sub = false →
      create_contact_error env.createResp = none →
      ∀ cid file_name bytes,
      get_contact_id env.idLookupErr (dir_after_create dir sub) sub.email = some cid →
      sub.attachment = some (file_name, bytes) →
      ((run_workflow env dir sub).trace).filter is_remote =
        [Event.lookupEmail sub.email, Event.lookupPhone sub.phone,
         Event.createContact (create_contact_payload sub.email sub.first_name
           sub.last_name sub.phone sub.list_id),
         Event.resolveId sub.email,
         Event.uploadFile cid file_name]) ∧
    (∀ e : Event, ((run_workflow env dir sub).trace).count e ≤ 1) := by
  refine ⟨?_, ?_, ?_, ?_, ?_, ?_, ?_, ?_⟩
  · intro hv
    rw [run_workflow_invalid_phone env dir sub hf hv]
    exact ⟨rfl, rfl⟩
  · intro hv he
    rw [run_workflow_email_dup env dir sub hf hv he]
    exact ⟨rfl, rfl, rfl, by decide⟩
  · intro hv he hp
    rw [run_workflow_phone_dup env dir sub hf hv he hp]
    exact ⟨rfl, rfl⟩
  · intro hv he hp m hc
    rw [run_workflow_create_failed env dir sub hf hv he hp m hc]
    exact ⟨rfl, rfl⟩
  · intro hv he hp hc hid
    rw [run_workflow_id_failed env dir sub hf hv he hp hc hid]
    exact ⟨rfl, rfl⟩
  · intro hv he hp hc cid hid hatt
    rw [run_workflow_no_attachment env dir sub hf hv he hp hc cid hid hatt]
    exact ⟨rfl, rfl⟩
  · intro hv he hp hc cid file_name bytes hid hatt
    rw [run_workflow_attachment env dir sub hf hv he hp hc cid hid file_name bytes hatt]
    rfl
  · intro e
    by_cases hv : is_valid_phone_number sub.phone = true
    · by_cases he : email_dup_check env dir sub = true
      · rw [run_workflow_email_dup env dir sub hf hv he]
        exact List.nodup_iff_count_le_one.mp (by simp) e
      · rw [Bool.not_eq_true] at he
        by_cases hp : phone_dup_check env dir sub = true
        · rw [run_workflow_phone_dup env dir sub hf hv he hp]
          exact List.nodup_iff_count_le_one.mp (by simp) e
        · rw [Bool.not_eq_true] at hp
          cases hc : create_contact_error env.createResp with
          | some m =>
              rw [run_workflow_create_failed env dir sub hf hv he hp m hc]
              exact List.nodup_iff_count_le_one.mp (by simp) e
          | none =>
              cases hid : get_contact_id env.idLookupErr (dir_after_create dir sub) sub.email with
              | none =>
                  rw [run_workflow_id_failed env dir sub hf hv he hp hc hid]
                  exact List.nodup_iff_count_le_one.mp (by simp) e
              | some cid =>
                  cases hatt : sub.attachment with
                  | none =>
                      rw [run_workflow_no_attachment env dir sub hf hv he hp hc cid hid hatt]
                      exact List.nodup_iff_count_le_one.mp (by simp) e
                  | some pr =>
                      obtain ⟨file_name, bytes⟩ := pr
                      rw [run_workflow_attachment env dir sub hf hv he hp hc cid hid
                        file_name bytes hatt]
                      exact List.nodup_iff_count_le_one.mp (by simp) e
    · rw [Bool.not_eq_true] at hv
      rw [run_workflow_invalid_phone env dir sub hf hv]
      simp

/-- Witness for C1 on the all-success path with an attachment. -/
theorem c1_witness :
    fields_present c1_sub ∧
    is_valid_phone_number c1_sub.phone = true ∧
    email_dup_check c1_env c1_dir c1_sub = false ∧
    phone_dup_check c1_env c1_dir c1_sub = false ∧
    create_contact_error c1_env.createResp = none ∧
    get_contact_id c1_env.idLookupErr (dir_after_create c1_dir c1_sub) c1_sub.email = some 7 ∧
    ((run_workflow c1_env c1_dir c1_sub).trace).filter is_remote =
      [Event.lookupEmail c1_sub.email, Event.lookupPhone c1_sub.phone,
       Event.createContact (create_contact_payload c1_sub.email c1_sub.first_name
         c1_sub.last_name c1_sub.phone c1_sub.list_id),
       Event.resolveId c1_sub.email,
       Event.uploadFile 7 (("report.pdf").toList)] ∧
    ((run_workflow c1_env c1_dir c1_sub).trace).count
      (Event.lookupEmail c1_sub.email) ≤ 1 := by
  refine ⟨by unfold fields_present; decide, by decide, by decide, by decide, rfl,
    by decide, ?_, ?_⟩
  · exact (c1_workflow_order c1_env c1_dir c1_sub (by unfold fields_present; decide)).2.2.2.2.2.2.1
      (by decide) (by decide) (by decide) rfl 7 (("report.pdf").toList) (("PDF").toList)
      (by decide) rfl
  · exact (c1_workflow_order c1_env c1_dir c1_sub (by unfold fields_present; decide)).2.2.2.2.2.2.2
      (Event.lookupEmail c1_sub.email)

/-- C2: when creation and identifier resolution succeed and the upload
then fails, no deletion request is ever issued (the created contact is
not rolled back), the run ends in the Done-with-partial-failure outcome
whose reported message is the dedicated upload-failure message, distinct
from the handler's plain creation-failure message and from every
`createFailed` outcome; the created contact is in the final directory
and a subsequent identifier resolution for that email still finds it. -/
theorem c2_upload_failure_no_rollback (env : Env) (dir : Directory) (sub : Submission)
    (hf : fields_present sub) (hv : is_valid_phone_number sub.phone = true)
    (hee : env.emailLookupErr = false) (hpe : env.phoneLookupErr = false)
    (hde : dir_has_email dir sub.email = false)
    (hdp : dir_has_phone dir sub.phone = false)
    (hc : env.createResp = CreateResp.success)
    (hid : env.idLookupErr = false)
    (hup : env.uploadOk = false)
    (file_name bytes : Str)
    (hatt : sub.attachment = some (file_name, bytes)) :
    (∀ cid, Event.deleteContact cid ∉ (run_workflow env dir sub).trace) ∧
    (run_workflow env dir sub).outcome = Outcome.donePartialUploadFailed ∧
    handler_reported_errors (run_workflow env dir sub).outcome = [upload_failed_message] ∧
    upload_failed_message ≠ plain_create_failure_message ∧
    (∀ m, (run_workflow env dir sub).outcome ≠ Outcome.createFailed m) ∧
    created_contact dir sub ∈ (run_workflow env dir sub).dir.contacts ∧
    get_contact_id false (run_workflow env dir sub).dir sub.email = some dir.nextId := by
  have he : email_dup_check env dir sub = false := by
    rw [email_dup_check_eq, hee, hde]
    rfl
  have hp : phone_dup_check env dir sub = false := by
    rw [phone_dup_check_eq, hpe, hdp]
    rfl
  have hcn : create_contact_error env.createResp = none := by
    rw [hc]
    rfl
  have hidr : get_contact_id env.idLookupErr (dir_after_create dir sub) sub.email =
      some dir.nextId := by
    rw [hid]
    exact get_contact_id_after_create dir sub hde
  have hrun := run_workflow_attachment env dir sub hf hv he hp hcn dir.nextId hidr
    file_name bytes hatt
  have houtcome : (run_workflow env dir sub).outcome = Outcome.donePartialUploadFailed := by
    rw [hrun]
    simp [hup]
  refine ⟨?_, houtcome, ?_, by decide, ?_, ?_, ?_⟩
  · intro cid
    rw [hrun]
    simp
  · rw [houtcome]
    rfl
  · intro m
    rw [houtcome]
    simp
  · rw [hrun]
    simp [dir_after_create]
  · rw [hrun]
    exact get_contact_id_after_create dir sub hde

/-- Witness for C2 on a concrete failing upload. -/
theorem c2_witness :
    (run_workflow c2_env c2_dir c2_sub).outcome = Outcome.donePartialUploadFailed ∧
    (∀ cid, Event.deleteContact cid ∉ (run_workflow c2_env c2_dir c2_sub).trace) ∧
    get_contact_id false (run_workflow c2_env c2_dir c2_sub).dir c2_sub.email = some 4 := by
  have h := c2_upload_failure_no_rollback c2_env c2_dir c2_sub
    (by unfold fields_present; decide) (by decide) rfl rfl (by decide) (by decide)
    rfl rfl rfl (("cv.pdf").toList) (("BYTES").toList) rfl
  exact ⟨h.2.1, h.1, h.2.2.2.2.2.2⟩

/-- C9 counterexample: on a concrete submission carrying an attachment,
the handler does write the attachment's bytes to the local filesystem
(the staging write of mi.py lines 277-278 appears in the trace), so "no
step of the workflow writes the uploaded file's bytes to the local
filesystem" is false. -/
theorem c9_counterexample :
    Event.fsWrite (("report.pdf").toList) (("PDFBYTES").toList) ∈
      (run_workflow
        { emailLookupErr := false, phoneLookupErr := false,
          createResp := CreateResp.success, idLookupErr := false, uploadOk := true }
        { contacts := [], nextId := 1 }
        { first_name := ("Ann").toList, last_name := ("Lee").toList,
          email := ("ann@example.com").toList, phone := ("27789538632").toList,
          list_id := 2,
          attachment := some (("report.pdf").toList, ("PDFBYTES").toList) }).trace := by
  decide

/-- C9 (amended): when a submission with an attachment reaches the
upload step, the handler first writes the attachment bytes to a local
file named after the uploaded file (mi.py lines 277-278), passes that
path to the upload call, and removes the staged file immediately after
the upload attempt, before reporting any result (mi.py line 281): the
bytes are transiently written to the local filesystem but the staged
file does not survive the run. -/
theorem c9_attachment_staged_locally (env : Env) (dir : Directory) (sub : Submission)
    (hf : fields_present sub) (hv : is_valid_phone_number sub.phone = true)
    (he : email_dup_check env dir sub = false)
    (hp : phone_dup_check env dir sub = false)
    (hc : create_contact_error env.createResp = none)
    (cid : Nat)
    (hid : get_contact_id env.idLookupErr (dir_after_create dir sub) sub.email = some cid)
    (file_name bytes : Str)
    (hatt : sub.attachment = some (file_name, bytes)) :
    (run_workflow env dir sub).trace =
      [Event.lookupEmail sub.email, Event.lookupPhone sub.phone,
       Event.createContact (create_contact_payload sub.email sub.first_name
         sub.last_name sub.phone sub.list_id),
       Event.resolveId sub.email,
       Event.fsWrite file_name bytes,
       Event.uploadFile cid file_name,
       Event.fsRemove file_name] := by
  rw [run_workflow_attachment env dir sub hf hv he hp hc cid hid file_name bytes hatt]

/-- Witness for C9's amended theorem. -/
theorem c9_witness :
    (run_workflow c9_env c9_dir c9_sub).trace =
      [Event.lookupEmail c9_sub.email, Event.lookupPhone c9_sub.phone,
       Event.createContact (create_contact_payload c9_sub.email c9_sub.first_name
         c9_sub.last_name c9_sub.phone c9_sub.list_id),
       Event.resolveId c9_sub.email,
       Event.fsWrite (("report.pdf").toList) (("PDFBYTES").toList),
       Event.uploadFile 1 (("report.pdf").toList),
       Event.fsRemove (("report.pdf").toList)] :=
  c9_attachment_staged_locally c9_env c9_dir c9_sub
    (by unfold fields_present; decide) (by decide) (by decide) (by decide) rfl
    1 (by decide) (("report.pdf").toList) (("PDFBYTES").toList) rfl

theorem gate_run_append (secret : Str) (s : Session) (l1 l2 : List Str) :
    gate_run secret s (l1 ++ l2) = gate_run secret (gate_run secret s l1) l2 := by
  induction l1 generalizing s with
  | nil => rfl
  | cons c cs ih =>
      rw [List.cons_append, gate_run, gate_run]
      exact ih _

theorem gate_run_all_fail (secret : Str) (failures : List Str) :
    ∀ s : Session, check_password s = false →
      (∀ f ∈ failures, f ≠ secret) →
      check_password (gate_run secret s failures) = false := by
  induction failures with
  | nil =>
      intro s hs _
      exact hs
  | cons c cs ih =>
      intro s hs hall
      rw [gate_run]
      apply ih
      · unfold gate_step
        rw [hs, if_neg Bool.false_ne_true]
        unfold password_entered check_password
        simp [beq_eq_false_iff_ne.mpr (hall c (List.mem_cons_self c cs))]
      · intro f hf
        exact hall f (List.mem_cons_of_mem c hf)

/-- C7: the gate keeps one session bit: a candidate equal to the
reference secret sets it; any mismatch stores false and renders the
"Password incorrect" error; once set the bit never changes for the rest
of the session (no expiry); no number of failed attempts locks the gate
out — a correct attempt after any run of failures still unlocks; and
while the bit is unset everything behind the gate is halted.  (The
constant-time property of `hmac.compare_digest` is a timing side-channel
property outside a functional model; its functional content, string
equality, is what is modelled.) -/
theorem c7_access_gate (secret : Str) :
    (∀ s c, c = secret → check_password (password_entered secret c s) = true) ∧
    (∀ s c, c ≠ secret → check_password (password_entered secret c s) = false ∧
      password_error_shown (password_entered secret c s) = true) ∧
    (∀ s cs, check_password s = true → gate_run secret s cs = s) ∧
    (∀ failures, (∀ f ∈ failures, f ≠ secret) →
      check_password (gate_run secret { password_correct := none } failures) = false ∧
      check_password (gate_run secret { password_correct := none }
        (failures ++ [secret])) = true) ∧
    (∀ s env dir sub, check_password s = false → main_gated s env dir sub = none) := by
  refine ⟨?_, ?_, ?_, ?_, ?_⟩
  · intro s c hc
    unfold password_entered check_password
    simp [beq_iff_eq.mpr hc]
  · intro s c hc
    unfold password_entered check_password password_error_shown
    simp [beq_eq_false_iff_ne.mpr hc]
  · intro s cs hs
    induction cs with
    | nil => rfl
    | cons c rest ih =>
        rw [gate_run]
        unfold gate_step
        rw [hs, if_pos rfl]
        exact ih
  · intro failures hall
    have hlocked : check_password (gate_run secret { password_correct := none } failures) =
        false :=
      gate_run_all_fail secret failures { password_correct := none } rfl hall
    refine ⟨hlocked, ?_⟩
    rw [gate_run_append]
    rw [show gate_run secret (gate_run secret { password_correct := none } failures)
        [secret] = gate_step secret (gate_run secret { password_correct := none } failures)
        secret from rfl]
    unfold gate_step
    rw [hlocked, if_neg Bool.false_ne_true]
    unfold password_entered check_password
    simp
  · intro s env dir sub hs
    unfold main_gated
    rw [hs, if_neg Bool.false_ne_true]

/-- Witness for C7: a concrete secret, two failed attempts that do not
lock the gate, then the correct secret unlocking it; a locked session
halts the submit handler. -/
theorem c7_witness :
    check_password (gate_run (("s3cret").toList) { password_correct := none }
      [("a").toList, ("b").toList]) = false ∧
    check_password (gate_run (("s3cret").toList) { password_correct := none }
      ([("a").toList, ("b").toList] ++ [("s3cret").toList])) = true ∧
    main_gated { password_correct := none }
      { emailLookupErr := false, phoneLookupErr := false,
        createResp := CreateResp.success, idLookupErr := false, uploadOk := true }
      { contacts := [], nextId := 1 }
      { first_name := ("A").toList, last_name := ("B").toList,
        email := ("a@b.c").toList, phone := ("27789538632").toList,
        list_id := 1, attachment := none } = none := by
  have h4 := (c7_access_gate (("s3cret").toList)).2.2.2.1
    [("a").toList, ("b").toList] (by decide)
  exact ⟨h4.1, h4.2,
    (c7_access_gate (("s3cret").toList)).2.2.2.2 { password_correct := none }
      { emailLookupErr := false, phoneLookupErr := false,
        createResp := CreateResp.success, idLookupErr := false, uploadOk := true }
      { contacts := [], nextId := 1 }
      { first_name := ("A").toList, last_name := ("B").toList,
        email := ("a@b.c").toList, phone := ("27789538632").toList,
        list_id := 1, attachment := none } rfl⟩

end Mi

